import Mathlib

/-!
Verification of the ACP (Agent Client Protocol) subsystem of ralph-orchestrator:
the protocol codec, the subprocess protocol client, the handshake and session
orchestration in the adapter, and the permission and file callback handlers.

The Python source is embedded shallowly: dictionaries become association lists
over a small JSON value type, exceptions become `Except`, the stateful client
and adapter become explicit state-passing functions, and the concurrent reader
worker becomes a step relation folded over a trace of events.
-/

/-- JSON values as carried on the ACP wire and in handler results. -/
inductive Json where
  | null
  | bool (b : Bool)
  | num (n : Int)
  | str (s : String)
  | arr (xs : List Json)
  | obj (fields : List (String × Json))

/-- Python dictionary lookup `d.get(k)` on an association list. -/
def dget (d : List (String × Json)) (k : String) : Option Json :=
  match d.find? (fun p => p.1 == k) with
  | some p => some p.2
  | none => none

/-- Python truthiness test `not x` on a JSON value. -/
def Json.falsy : Json → Bool
  | .null => true
  | .bool b => !b
  | .num n => n == 0
  | .str s => s == ""
  | .arr xs => xs.isEmpty
  | .obj fields => fields.isEmpty

/-- Python truthiness of `d.get(k)`: a missing key is falsy. -/
def optFalsy : Option Json → Bool
  | none => true
  | some j => j.falsy

/-- Python `str(x)` for the scalar JSON values; container rendering is
abbreviated (no claim inspects the rendering of a container). -/
def pyStr : Json → String
  | .null => "None"
  | .bool true => "True"
  | .bool false => "False"
  | .num n => toString n
  | .str s => s
  | .arr _ => "<list>"
  | .obj _ => "<dict>"

/-- Extract a JSON number as a request id when it is a nonnegative integer. -/
def Json.asNat? : Json → Option Nat
  | .num (Int.ofNat k) => some k
  | _ => none

/-- A classified wire message, the result of the codec parse step. -/
inductive Message where
  | request (id : Nat) (method : String) (params : Json)
  | response (id : Nat) (result : Json)
  | errorMsg (id : Nat) (error : Json)
  | notify (method : String) (params : Json)
  | parseFailure

/-- Modelled from the spec: `acp_protocol.py` (class ACPProtocol) is not under
src/, only its importers are.  The spec says the codec builds a request as
`(id, serialized-line)` with ids drawn from a monotonically increasing counter,
the line being one JSON-RPC 2.0 shaped object.  The textual JSON encoding is
Python's json library (external); the line is modelled as its JSON object.
`create_request` takes the counter and returns the bumped counter, the
allocated id, and the wire object. -/
def create_request (counter : Nat) (method : String) (params : Json) :
    Nat × Nat × Json :=
  (counter + 1, counter,
    Json.obj [("jsonrpc", Json.str "2.0"), ("id", Json.num counter),
              ("method", Json.str method), ("params", params)])

/-- Modelled from the spec: `acp_protocol.py` (ACPProtocol.parse_message) is
not under src/.  The spec classifies one parsed line by shape: id and method
give a request, id and result a response, id and error an error, method
without id a notification; anything else is a typed parse failure. -/
def parse_message (line : Json) : Message :=
  match line with
  | Json.obj d =>
    match dget d "id" with
    | some idJson =>
      match idJson.asNat? with
      | some id =>
        match dget d "method" with
        | some (Json.str m) => Message.request id m ((dget d "params").getD (Json.obj []))
        | _ =>
          match dget d "result" with
          | some r => Message.response id r
          | none =>
            match dget d "error" with
            | some e => Message.errorMsg id e
            | none => Message.parseFailure
      | none => Message.parseFailure
    | none =>
      match dget d "method" with
      | some (Json.str m) => Message.notify m ((dget d "params").getD (Json.obj []))
      | _ => Message.parseFailure
  | _ => Message.parseFailure

/-- The permission handler of the adapter in src/ (acp.py,
ACPAdapter._handle_permission_request): auto_approve answers an approved
dictionary, every other mode (deny_all included) answers a denied one. -/
def handle_permission_request (mode : String) (_params : List (String × Json)) :
    List (String × Json) :=
  if mode = "auto_approve" then [("approved", Json.bool true)]
  else if mode = "deny_all" then [("approved", Json.bool false)]
  else [("approved", Json.bool false)]

/-- The request handler of the adapter in src/ (acp.py,
ACPAdapter._handle_request): only session/request_permission is dispatched;
every other method answers an empty dictionary. -/
def handle_request (mode : String) (method : String)
    (params : List (String × Json)) : List (String × Json) :=
  if method = "session/request_permission" then handle_permission_request mode params
  else []

/-- The observable construction state of ACPAdapter.__init__ in src/ (acp.py):
the constructor stores its arguments and performs no validation of the
permission mode. -/
structure AdapterInit where
  agent_command : String
  permission_mode : String
  initialized : Bool

/-- ACPAdapter.__init__ from src/ (acp.py lines 39..77): assigns the fields and
returns; the Except models that construction could signal a fatal
configuration error, and it never does. -/
def acpAdapter_init (cmd : String) (mode : String) : Except String AdapterInit :=
  Except.ok { agent_command := cmd, permission_mode := mode, initialized := false }

/-- Phase of the subprocess handle held by ACPClient: running means the
handle exists and its returncode is still None. -/
inductive ProcPhase where
  | running
  | exited
deriving DecidableEq

/-- Observable state of ACPClient (acp_client.py): the subprocess handle,
the reader task, and the ids in the pending-request table. -/
structure ClientState where
  process : Option ProcPhase
  readTask : Bool
  pending : List Nat
deriving DecidableEq

/-- ACPClient.is_running: the handle exists and the returncode is None. -/
def ClientState.is_running (s : ClientState) : Bool :=
  s.process == some ProcPhase.running

/-- ACPClient.start (acp_client.py lines 74..97): raises RuntimeError when
already running, otherwise spawns the subprocess and launches the reader. -/
def clientStart (s : ClientState) : Except String ClientState :=
  if s.is_running then Except.error "ACPClient is already running"
  else Except.ok { s with process := some ProcPhase.running, readTask := true }

/-- Externally visible actions ACPClient.stop performs. -/
inductive StopAction where
  | cancelReadTask
  | terminateProcess
  | cancelPending (id : Nat)
deriving DecidableEq

/-- ACPClient.stop (acp_client.py lines 99..142): a no-op when not running;
otherwise cancels the reader, terminates the process with bounded waits,
clears the handle and the reader slot, and cancels every pending call. -/
def clientStop (s : ClientState) : ClientState × List StopAction :=
  if s.is_running then
    ({ process := none, readTask := false, pending := [] },
     (if s.readTask then [StopAction.cancelReadTask] else []) ++
       [StopAction.terminateProcess] ++ s.pending.map StopAction.cancelPending)
  else (s, [])

/-- One resolution of a pending-call handle, tagged with where it came from:
the reader worker on a response line, the reader worker on an error line, the
write helper after a failed send, or the reader-exit cleanup. -/
inductive ClientEvent where
  | readerResolved (id : Nat)
  | readerFailed (id : Nat)
  | writeFailed (id : Nat)
  | terminatedFailed (id : Nat)

/-- The id a resolution event touches. -/
def ClientEvent.idOf : ClientEvent → Nat
  | .readerResolved i => i
  | .readerFailed i => i
  | .writeFailed i => i
  | .terminatedFailed i => i

/-- Whether the event is one of the two paths the spec sentence lists: a
reader-worker resolution on a matching line, or the subprocess-terminated
failure at reader exit.  The write-failure path is the one it omits. -/
def ClientEvent.isReaderOrTerm : ClientEvent → Bool
  | .readerResolved _ => true
  | .readerFailed _ => true
  | .writeFailed _ => false
  | .terminatedFailed _ => true

/-- One step of the interleaved life of the client while the reader worker
runs: a caller sends a request (allocating the next id), the scheduled write
of some request fails, or the reader worker handles one parsed line
(response, error, notification, or inbound request). -/
inductive LoopStep where
  | sendRequest
  | writeFail (id : Nat)
  | recvResponse (id : Nat)
  | recvError (id : Nat)
  | recvNotify
  | recvCall

/-- State threaded through the trace: the protocol counter, the pending
table (ids only; a registered handle is pending until popped), and the log
of resolutions performed so far. -/
structure LoopState where
  nextId : Nat
  pending : List Nat
  events : List ClientEvent

/-- Pop the handle for `i` and log one resolution event, exactly as
ACPClient pops the future by id before resolving or failing it; an id with
no pending entry is dropped silently. -/
def popResolve (s : LoopState) (i : Nat) (e : ClientEvent) : LoopState :=
  if i ∈ s.pending then
    { s with pending := s.pending.erase i, events := s.events ++ [e] }
  else s

/-- The transition function of the trace model.  send_request registers the
freshly allocated id (acp_client.py lines 272..294); _do_send pops and fails
the handle when the write fails (lines 258..270); _handle_message pops and
resolves or fails on RESPONSE and ERROR lines (lines 172..199); notification
and inbound-request lines never touch the pending table. -/
def applyStep (s : LoopState) : LoopStep → LoopState
  | .sendRequest =>
      { s with nextId := s.nextId + 1, pending := s.pending ++ [s.nextId] }
  | .writeFail i => popResolve s i (ClientEvent.writeFailed i)
  | .recvResponse i => popResolve s i (ClientEvent.readerResolved i)
  | .recvError i => popResolve s i (ClientEvent.readerFailed i)
  | .recvNotify => s
  | .recvCall => s

/-- The fresh client: counter at zero, nothing pending, nothing resolved. -/
def loopInit : LoopState := { nextId := 0, pending := [], events := [] }

/-- The finally block of ACPClient._read_loop (acp_client.py lines 165..170):
when the reader worker exits for any reason, every still-pending call is
failed with the subprocess-terminated error and the table is cleared. -/
def readerLoopExit (s : LoopState) : LoopState :=
  { s with pending := [],
           events := s.events ++ s.pending.map ClientEvent.terminatedFailed }

/-- A whole run: fold the trace from the fresh client, then let the reader
worker exit and run its cleanup. -/
def runLoop (steps : List LoopStep) : LoopState :=
  readerLoopExit (steps.foldl applyStep loopInit)

/-- Number of resolution events in a log that touch the id `i`. -/
def resolutions (evs : List ClientEvent) (i : Nat) : Nat :=
  (evs.filter (fun e => e.idOf == i)).length

/-- Number of resolution events for `i` performed by one of the two paths
the spec sentence lists (reader worker, or terminated-at-exit). -/
def listedResolutions (evs : List ClientEvent) (i : Nat) : Nat :=
  (evs.filter (fun e => e.idOf == i && e.isReaderOrTerm)).length

/-- Phase of the Client owned by the adapter. -/
inductive ClientPhase where
  | running
  | stopped
deriving DecidableEq

/-- Observable state of ACPAdapter around the handshake (acp.py): the owned
Client, the stored session id, the initialized flag, and the Session. -/
structure AdapterState where
  client : Option ClientPhase
  sessionId : Option Json
  initialized : Bool
  session : Option Json

/-- Outcome of awaiting one request future during the handshake: the bounded
wait timed out, the future was failed (error line or subprocess death), or a
response dictionary arrived. -/
inductive CallOutcome where
  | timeout
  | failedCall (msg : String)
  | okReply (result : List (String × Json))

/-- A protocol-visible action the handshake performs. -/
inductive ProtoCall where
  | startClient
  | send (method : String)
deriving DecidableEq

/-- ACPAdapter._initialize (acp.py lines 158..229): a no-op when already
initialized; otherwise creates and starts the Client, sends initialize and
requires protocolVersion in the reply, sends session/new and requires a
truthy sessionId, then constructs the Session and sets the flag.  A timeout
becomes the typed initialization-timed-out error; any failure stops the
Client before the error surfaces.  Returns the new state, the protocol calls
performed, and the typed result. -/
def handshake (st : AdapterState) (initCall sessCall : CallOutcome) :
    AdapterState × List ProtoCall × Except String Unit :=
  if st.initialized then (st, [], Except.ok ())
  else
    let calls0 := [ProtoCall.startClient, ProtoCall.send "initialize"]
    match initCall with
    | .timeout =>
        ({ st with client := some ClientPhase.stopped }, calls0,
          Except.error "Initialization timed out")
    | .failedCall m =>
        ({ st with client := some ClientPhase.stopped }, calls0, Except.error m)
    | .okReply d =>
      if (dget d "protocolVersion").isNone then
        ({ st with client := some ClientPhase.stopped }, calls0,
          Except.error "Invalid initialize response: missing protocolVersion")
      else
        let calls1 := calls0 ++ [ProtoCall.send "session/new"]
        match sessCall with
        | .timeout =>
            ({ st with client := some ClientPhase.stopped }, calls1,
              Except.error "Initialization timed out")
        | .failedCall m =>
            ({ st with client := some ClientPhase.stopped }, calls1, Except.error m)
        | .okReply d2 =>
          let sid := dget d2 "sessionId"
          if optFalsy sid then
            ({ st with client := some ClientPhase.stopped, sessionId := sid }, calls1,
              Except.error "Invalid session/new response: missing sessionId")
          else
            ({ st with
                 client := some ClientPhase.running
                 sessionId := sid
                 initialized := true
                 session := sid }, calls1, Except.ok ())

/-- The uniform response shape every execute outcome is normalized into
(base.py ToolResponse, declared outside src/; fields as the spec and every
use in acp.py give them). -/
structure ToolResponse where
  success : Bool
  output : String
  error : Option String := none
  metadata : Option (List (String × Json)) := none

/-- The response both execute paths return when the agent command does not
resolve on the search path. -/
def unavailableResponse (cmd : String) : ToolResponse :=
  { success := false, output := "",
    error := some ("ACP adapter not available: " ++ cmd ++ " not found") }

/-- Modelled from the spec: base.py (_enhance_prompt_with_instructions) is
not under src/; the spec says execute prepends fixed orchestration framing
to the caller's prompt. -/
def enhancePrompt (prompt : String) : String :=
  "ORCHESTRATION CONTEXT: this is one iteration of an orchestrated loop.\n\n" ++ prompt

/-- ACPAdapter._execute_prompt from src/ (acp.py lines 278..301): the
placeholder success response echoing the session id; the enhanced prompt is
accepted and unused, exactly as in this version of the source. -/
def executePrompt (cmd : String) (st : AdapterState) (_prompt : String) : ToolResponse :=
  { success := true,
    output := "ACP adapter initialized with session " ++ pyStr (st.sessionId.getD Json.null),
    metadata := some [("tool", Json.str "acp"), ("agent", Json.str cmd),
                      ("session_id", st.sessionId.getD Json.null)] }

/-- ACPAdapter.aexecute (acp.py lines 343..382): unavailable commands are
answered without touching the client; otherwise the handshake runs if
needed, the prompt is enhanced and executed, and both the typed ACP errors
and every other exception are caught and normalized.  The Except return
models exceptions escaping to the caller; aexecute never produces one. -/
def aexecute (available : Bool) (cmd : String) (st : AdapterState)
    (initCall sessCall : CallOutcome) (prompt : String) :
    AdapterState × Except String ToolResponse :=
  if available then
    match handshake st initCall sessCall with
    | (st', _, Except.error m) =>
        (st', Except.ok { success := false, output := "", error := some ("ACP error: " ++ m) })
    | (st', _, Except.ok _) =>
        (st', Except.ok (executePrompt cmd st' (enhancePrompt prompt)))
  else (st, Except.ok (unavailableResponse cmd))

/-- ACPAdapter.execute (acp.py lines 316..341): the synchronous wrapper runs
aexecute in a fresh event loop and catches any exception it would raise,
normalizing it into a failure response. -/
def executeSync (available : Bool) (cmd : String) (st : AdapterState)
    (initCall sessCall : CallOutcome) (prompt : String) :
    AdapterState × Except String ToolResponse :=
  if available then
    match aexecute available cmd st initCall sessCall prompt with
    | (st', Except.ok r) => (st', Except.ok r)
    | (st', Except.error e) =>
        (st', Except.ok { success := false, output := "", error := some e })
  else (st, Except.ok (unavailableResponse cmd))

/-- The initialize reply fails validation: the bounded wait timed out, the
future failed, or the reply lacks the protocolVersion field. -/
def initReplyBad : CallOutcome → Bool
  | .timeout => true
  | .failedCall _ => true
  | .okReply d => (dget d "protocolVersion").isNone

/-- The session/new reply fails validation: the bounded wait timed out, the
future failed, or the reply lacks the sessionId field. -/
def sessionReplyBad : CallOutcome → Bool
  | .timeout => true
  | .failedCall _ => true
  | .okReply d => (dget d "sessionId").isNone

/-- A filesystem node for the file-callback model. -/
inductive FsNode where
  | file (content : String)
  | dir

/-- Lookup of a path in the modelled filesystem. -/
def fsLookup (fs : List (String × FsNode)) (p : String) : Option FsNode :=
  match fs.find? (fun q => q.1 == p) with
  | some q => some q.2
  | none => none

/-- POSIX absoluteness, as pathlib's is_absolute on the platforms the repo
targets. -/
def isAbsolute (p : String) : Bool := p.data.head? == some '/'

/-- The structured error result a callback handler returns. -/
def errorResult (code : Int) (msg : String) : List (String × Json) :=
  [("error", Json.obj [("code", Json.num code), ("message", Json.str msg)])]

/-- Modelled from the spec: acp_handlers.py (ACPHandlers.handle_read_file)
is not under src/, only its tests are.  The spec: the path must be absolute
(otherwise an invalid-params error, code -32602); a nonexistent path is not
an error and yields null content with an explicit exists=false flag; a
directory is a domain error (code -32002); otherwise the full text content
is returned.  A missing path parameter is the invalid-params error the
tests show. -/
def handle_read_file (fs : List (String × FsNode)) (params : List (String × Json)) :
    List (String × Json) :=
  match dget params "path" with
  | some (Json.str p) =>
    if isAbsolute p then
      match fsLookup fs p with
      | none => [("content", Json.null), ("exists", Json.bool false)]
      | some FsNode.dir => errorResult (-32002) "Path is not a file"
      | some (FsNode.file c) => [("content", Json.str c)]
    else errorResult (-32602) "Path must be absolute"
  | _ => errorResult (-32602) "Missing required parameter: path"

/-- A response line the client writes back for an inbound request, as built
by the codec from ACPClient._handle_message (acp_client.py lines 211..240). -/
inductive WireReply where
  | success (id : Nat) (result : Json)
  | err (id : Nat) (code : Json) (msg : Json)

/-- The write-back policy of ACPClient._handle_message for the REQUEST
branch: a handler result carrying an "error" key becomes an error response
(code and message pulled from the error dictionary, internal-error defaults
otherwise); any other result is echoed as a successful response. -/
def replyForHandlerResult (id : Nat) (result : List (String × Json)) : WireReply :=
  match dget result "error" with
  | none => WireReply.success id (Json.obj result)
  | some info =>
    match info with
    | Json.obj d =>
        WireReply.err id ((dget d "code").getD (Json.num (-32603)))
          ((dget d "message").getD (Json.str (pyStr info)))
    | _ => WireReply.err id (Json.num (-32603)) (Json.str (pyStr info))


/-- Reduction of handle_read_file once the params carry a string path. -/
theorem handle_read_file_on_path (fs : List (String × FsNode)) (p : String) :
    handle_read_file fs [("path", Json.str p)] =
      (if isAbsolute p then
        match fsLookup fs p with
        | none => [("content", Json.null), ("exists", Json.bool false)]
        | some FsNode.dir => errorResult (-32002) "Path is not a file"
        | some (FsNode.file c) => [("content", Json.str c)]
      else errorResult (-32602) "Path must be absolute") := rfl

/-- Claim C8: encoding a request with the Protocol Codec and parsing the
resulting wire line yields a message classified as a request with exactly
the same method, params and id. -/
theorem acpC8_request_roundtrip (counter : Nat) (method : String) (params : Json) :
    parse_message (create_request counter method params).2.2 =
      Message.request counter method params := rfl

/-- Concrete permission params with a caller-supplied option id. -/
def permParamsC3 : List (String × Json) :=
  [("operation", Json.str "op1"),
   ("options", Json.arr [Json.obj [("id", Json.str "allow"), ("type", Json.str "allow")]])]

/-- Claim C3, code-bug evidence: the permission handler in src answers the
legacy approved shape; at an approving mode with a caller-supplied option id
the result is approved=true with no outcome key, and at the denying mode it
is approved=false rather than a cancelled outcome. -/
theorem acpC3_src_returns_approved_shape :
    handle_permission_request "auto_approve" permParamsC3 = [("approved", Json.bool true)] ∧
    dget (handle_permission_request "auto_approve" permParamsC3) "outcome" = none ∧
    handle_permission_request "deny_all" permParamsC3 = [("approved", Json.bool false)] :=
  ⟨rfl, rfl, rfl⟩

/-- Claim C5, code-bug evidence: ACPAdapter.__init__ in src performs no
validation of the permission mode; construction with an unrecognized mode
succeeds and stores the mode verbatim. -/
theorem acpC5_src_accepts_unrecognized_mode :
    acpAdapter_init "gemini" "totally_bogus_mode" =
      Except.ok { agent_command := "gemini", permission_mode := "totally_bogus_mode",
                  initialized := false } := rfl

/-- Claim C9: calling start while the subprocess is already running raises
the already-running error before anything is spawned, so the existing
subprocess and reader worker are untouched and the client owns at most one
of each. -/
theorem acpC9_start_when_running_errors (s : ClientState)
    (h : s.is_running = true) :
    clientStart s = Except.error "ACPClient is already running" := by
  unfold clientStart
  simp [h]

/-- A client state with a live subprocess, a reader worker and one pending call. -/
def runningClient : ClientState :=
  { process := some ProcPhase.running, readTask := true, pending := [3] }

/-- Witness for C9 at a concrete running client. -/
theorem acpC9_witness :
    clientStart runningClient = Except.error "ACPClient is already running" :=
  acpC9_start_when_running_errors runningClient rfl

/-- Claim C10: every inbound request whose method is not
session/request_permission is answered with the empty dictionary, and the
client writes that back as a successful response with an empty result. -/
theorem acpC10_unknown_requests_get_empty_success (mode method : String)
    (params : List (String × Json)) (id : Nat)
    (h : method ≠ "session/request_permission") :
    handle_request mode method params = [] ∧
    replyForHandlerResult id (handle_request mode method params) =
      WireReply.success id (Json.obj []) := by
  have h1 : handle_request mode method params = [] := by
    unfold handle_request
    rw [if_neg h]
  exact ⟨h1, by rw [h1]; rfl⟩

/-- Witness for C10 at a concrete fs callback method. -/
theorem acpC10_witness :
    handle_request "auto_approve" "fs/read_text_file" [] = [] ∧
    replyForHandlerResult 7 (handle_request "auto_approve" "fs/read_text_file" []) =
      WireReply.success 7 (Json.obj []) :=
  acpC10_unknown_requests_get_empty_success "auto_approve" "fs/read_text_file" [] 7
    (by decide)

/-- Claim C7: read_file answers a nonexistent absolute path with null
content and exists=false and no error key; a relative path with the
invalid-params error (code -32602); an existing absolute file path with the
full text content. -/
theorem acpC7_read_file (fs : List (String × FsNode)) (p : String) (c : String) :
    (isAbsolute p = true → fsLookup fs p = none →
       handle_read_file fs [("path", Json.str p)] =
         [("content", Json.null), ("exists", Json.bool false)]) ∧
    (isAbsolute p = false →
       handle_read_file fs [("path", Json.str p)] =
         errorResult (-32602) "Path must be absolute") ∧
    (isAbsolute p = true → fsLookup fs p = some (FsNode.file c) →
       handle_read_file fs [("path", Json.str p)] = [("content", Json.str c)]) := by
  refine ⟨?_, ?_, ?_⟩
  · intro h1 h2
    rw [handle_read_file_on_path, h2]
    simp [h1]
  · intro h1
    rw [handle_read_file_on_path]
    simp [h1]
  · intro h1 h2
    rw [handle_read_file_on_path, h2]
    simp [h1]

/-- A concrete filesystem with one text file. -/
def fsC7 : List (String × FsNode) := [("/data/hello.txt", FsNode.file "Hello, World!")]

/-- Witness for C7: the three read_file behaviors at concrete paths. -/
theorem acpC7_witness :
    handle_read_file fsC7 [("path", Json.str "/missing.txt")] =
      [("content", Json.null), ("exists", Json.bool false)] ∧
    handle_read_file fsC7 [("path", Json.str "relative/path.txt")] =
      errorResult (-32602) "Path must be absolute" ∧
    handle_read_file fsC7 [("path", Json.str "/data/hello.txt")] =
      [("content", Json.str "Hello, World!")] :=
  ⟨(acpC7_read_file fsC7 "/missing.txt" "").1 (by decide) rfl,
   (acpC7_read_file fsC7 "relative/path.txt" "").2.1 (by decide),
   (acpC7_read_file fsC7 "/data/hello.txt" "Hello, World!").2.2 (by decide) rfl⟩

/-- Claim C6: stop is idempotent — from any client state a second stop
returns the very state the first produced and performs no actions — and the
handshake is idempotent — on an already-initialized adapter it changes
nothing, performs no protocol calls and succeeds. -/
theorem acpC6_stop_and_handshake_idempotent :
    (∀ s : ClientState, clientStop (clientStop s).1 = ((clientStop s).1, [])) ∧
    (∀ (st : AdapterState) (ic sc : CallOutcome), st.initialized = true →
       handshake st ic sc = (st, [], Except.ok ())) := by
  constructor
  · intro s
    by_cases h : s.is_running = true
    · have h1 : (clientStop s).1 = { process := none, readTask := false, pending := [] } := by
        unfold clientStop
        rw [if_pos h]
    
      rw [h1]
      rfl
    · have h1 : clientStop s = (s, []) := by
        unfold clientStop
        rw [if_neg h]
      rw [h1]
      exact h1
  · intro st ic sc h
    unfold handshake
    rw [if_pos h]

/-- An adapter whose handshake has already completed. -/
def initializedAdapter : AdapterState :=
  { client := some ClientPhase.running, sessionId := some (Json.str "s-1"),
    initialized := true, session := some (Json.str "s-1") }

/-- Witness for C6: the handshake on an initialized adapter is untouched. -/
theorem acpC6_witness :
    handshake initializedAdapter CallOutcome.timeout CallOutcome.timeout =
      (initializedAdapter, [], Except.ok ()) :=
  acpC6_stop_and_handshake_idempotent.2 initializedAdapter CallOutcome.timeout
    CallOutcome.timeout rfl

/-- Claim C4: whenever the initialize reply lacks protocolVersion, or the
session/new reply lacks sessionId, or either call times out (or fails), the
handshake surfaces a typed error, the Client is stopped before the error
surfaces, the initialized flag stays false and no Session is constructed. -/
theorem acpC4_handshake_failure_is_clean (st : AdapterState) (ic sc : CallOutcome)
    (hinit : st.initialized = false) (hsess : st.session = none)
    (hbad : initReplyBad ic = true ∨ sessionReplyBad sc = true) :
    (handshake st ic sc).1.client = some ClientPhase.stopped ∧
    (handshake st ic sc).1.initialized = false ∧
    (handshake st ic sc).1.session = none ∧
    ∃ m, (handshake st ic sc).2.2 = Except.error m := by
  cases ic with
  | timeout => simp [handshake, hinit, hsess]
  | failedCall m => simp [handshake, hinit, hsess]
  | okReply d =>
      by_cases hpv : (dget d "protocolVersion").isNone = true
      · simp [handshake, hinit, hsess, hpv]
      · rcases hbad with hb | hb
        · exact absurd hb hpv
        · cases sc with
          | timeout => simp [handshake, hinit, hsess, hpv]
          | failedCall m => simp [handshake, hinit, hsess, hpv]
          | okReply d2 =>
              have hb' : (dget d2 "sessionId").isNone = true := hb
              have hn : dget d2 "sessionId" = none := Option.isNone_iff_eq_none.mp hb'
              simp [handshake, hinit, hsess, hpv, hn, optFalsy]

/-- An adapter that has not seen a handshake yet. -/
def freshAdapter : AdapterState :=
  { client := none, sessionId := none, initialized := false, session := none }

/-- Witness for C4: a timed-out initialize call on a fresh adapter. -/
theorem acpC4_witness :
    (handshake freshAdapter CallOutcome.timeout (CallOutcome.okReply [])).1.client =
      some ClientPhase.stopped ∧
    (handshake freshAdapter CallOutcome.timeout (CallOutcome.okReply [])).1.initialized = false ∧
    (handshake freshAdapter CallOutcome.timeout (CallOutcome.okReply [])).1.session = none ∧
    ∃ m, (handshake freshAdapter CallOutcome.timeout (CallOutcome.okReply [])).2.2 =
      Except.error m :=
  acpC4_handshake_failure_is_clean freshAdapter CallOutcome.timeout
    (CallOutcome.okReply []) rfl rfl (Or.inl rfl)

/-- The normal shape of both execute results: either success with no error,
or failure carrying an error message. -/
def responseNormalized (r : ToolResponse) : Prop :=
  r.success = true ∧ r.error = none ∨ r.success = false ∧ r.error.isSome = true

/-- aexecute always produces a response (never an exception), and the
response is normalized. -/
theorem aexecute_shape (a : Bool) (cmd : String) (st : AdapterState)
    (ic sc : CallOutcome) (p : String) :
    ∃ st' r, aexecute a cmd st ic sc p = (st', Except.ok r) ∧ responseNormalized r := by
  cases a with
  | false =>
      exact ⟨st, unavailableResponse cmd, rfl, Or.inr ⟨rfl, rfl⟩⟩
  | true =>
      rcases hh : handshake st ic sc with ⟨st', calls, res⟩
      cases res with
      | error m =>
          refine ⟨st', { success := false, output := "",
                         error := some ("ACP error: " ++ m) }, ?_, Or.inr ⟨rfl, rfl⟩⟩
          simp [aexecute, hh]
      | ok u =>
          cases u
          refine ⟨st', executePrompt cmd st' (enhancePrompt p), ?_, Or.inl ⟨rfl, rfl⟩⟩
          simp [aexecute, hh]

/-- Claim C2: for every availability, adapter state and environment outcome,
both the async execute and the synchronous execute return an ok response
object (never an exception across the boundary), and the response is
normalized: success with no error, or failure with an error message. -/
theorem acpC2_execute_never_raises (available : Bool) (cmd : String)
    (st : AdapterState) (ic sc : CallOutcome) (prompt : String) :
    (∃ r, (aexecute available cmd st ic sc prompt).2 = Except.ok r ∧
       responseNormalized r) ∧
    (∃ r, (executeSync available cmd st ic sc prompt).2 = Except.ok r ∧
       responseNormalized r) := by
  obtain ⟨st', r, hr, hn⟩ := aexecute_shape available cmd st ic sc prompt
  constructor
  · exact ⟨r, by rw [hr], hn⟩
  · cases available with
    | false => exact ⟨unavailableResponse cmd, rfl, Or.inr ⟨rfl, rfl⟩⟩
    | true =>
        refine ⟨r, ?_, hn⟩
        simp [executeSync, hr]

/-- Resolution counts add over concatenated logs. -/
theorem resolutions_append (a b : List ClientEvent) (i : Nat) :
    resolutions (a ++ b) i = resolutions a i + resolutions b i := by
  simp [resolutions, List.filter_append]

/-- Resolution count of a one-event log. -/
theorem resolutions_single (e : ClientEvent) (i : Nat) :
    resolutions [e] i = if e.idOf = i then 1 else 0 := by
  by_cases h : e.idOf = i <;> simp [resolutions, h]

/-- The reader-exit cleanup contributes one event per pending occurrence. -/
theorem resolutions_map_term (l : List Nat) (i : Nat) :
    resolutions (l.map ClientEvent.terminatedFailed) i = l.count i := by
  induction l with
  | nil => simp [resolutions]
  | cons a t ih =>
      by_cases h : a = i <;>
        simp [resolutions, ClientEvent.idOf, h, List.count_cons] at * <;>
        omega

/-- The exactly-once invariant of the pending-call table: pending ids are
distinct and below the counter with no resolution yet; allocated ids no
longer pending have exactly one resolution; unallocated ids have none. -/
def LoopInv (s : LoopState) : Prop :=
  s.pending.Nodup ∧
  (∀ i, i ∈ s.pending → i < s.nextId ∧ resolutions s.events i = 0) ∧
  (∀ i, i < s.nextId → i ∉ s.pending → resolutions s.events i = 1) ∧
  (∀ i, s.nextId ≤ i → resolutions s.events i = 0)

/-- The invariant holds for the fresh client. -/
theorem loopInv_init : LoopInv loopInit := by
  refine ⟨List.nodup_nil, ?_, ?_, ?_⟩
  · intro i h
    simp [loopInit] at h
  · intro i h1 h2
    simp [loopInit] at h1
  · intro i h
    simp [loopInit, resolutions]

/-- Popping and logging one resolution preserves the invariant. -/
theorem loopInv_popResolve (s : LoopState) (i : Nat) (e : ClientEvent)
    (hid : e.idOf = i) (h : LoopInv s) : LoopInv (popResolve s i e) := by
  obtain ⟨hnd, hp, hr, hhi⟩ := h
  unfold popResolve
  by_cases hm : i ∈ s.pending
  · rw [if_pos hm]
    refine ⟨hnd.erase i, ?_, ?_, ?_⟩
    · intro j hj
      have hj' : j ≠ i ∧ j ∈ s.pending := hnd.mem_erase_iff.mp hj
      refine ⟨(hp j hj'.2).1, ?_⟩
      rw [resolutions_append, resolutions_single, hid,
          if_neg (fun hh => hj'.1 hh.symm), (hp j hj'.2).2]
    · intro j hj1 hj2
      by_cases hji : j = i
      · subst hji
        rw [resolutions_append, resolutions_single, hid, if_pos rfl, (hp j hm).2]
      · have hjp : j ∉ s.pending := by
          intro hcon
          exact hj2 (hnd.mem_erase_iff.mpr ⟨hji, hcon⟩)
        rw [resolutions_append, resolutions_single, hid,
            if_neg (fun hh => hji hh.symm), hr j hj1 hjp]
    · intro j hj
      have hj' : s.nextId ≤ j := hj
      have hij : i < s.nextId := (hp i hm).1
      show resolutions (s.events ++ [e]) j = 0
      rw [resolutions_append, resolutions_single, hid,
          if_neg (by omega : ¬ i = j), hhi j hj']
  · rw [if_neg hm]
    exact ⟨hnd, hp, hr, hhi⟩

/-- Allocating a fresh id and registering its handle preserves the invariant. -/
theorem loopInv_send (s : LoopState) (h : LoopInv s) :
    LoopInv { s with nextId := s.nextId + 1, pending := s.pending ++ [s.nextId] } := by
  obtain ⟨hnd, hp, hr, hhi⟩ := h
  refine ⟨?_, ?_, ?_, ?_⟩
  · show (s.pending ++ [s.nextId]).Nodup
    rw [List.nodup_append]
    refine ⟨hnd, List.nodup_singleton _, ?_⟩
    intro a ha hb
    rw [List.mem_singleton] at hb
    subst hb
    exact absurd (hp _ ha).1 (lt_irrefl _)
  · intro j hj
    have hj' : j ∈ s.pending ++ [s.nextId] := hj
    rw [List.mem_append, List.mem_singleton] at hj'
    refine ⟨show j < s.nextId + 1 from ?_, show resolutions s.events j = 0 from ?_⟩
    · rcases hj' with hj' | hj'
      · have := (hp j hj').1
        omega
      · omega
    · rcases hj' with hj' | hj'
      · exact (hp j hj').2
      · subst hj'
        exact hhi _ (le_refl _)
  · intro j hj1 hj2
    have hj1' : j < s.nextId + 1 := hj1
    have hj2' : j ∉ s.pending ++ [s.nextId] := hj2
    rw [List.mem_append, List.mem_singleton] at hj2'
    push_neg at hj2'
    have hjlt : j < s.nextId := by
      have := hj2'.2
      omega
    exact hr j hjlt hj2'.1
  · intro j hj
    have hj' : s.nextId + 1 ≤ j := hj
    exact hhi j (by omega)

/-- Every step of the trace preserves the invariant. -/
theorem loopInv_applyStep (s : LoopState) (st : LoopStep)
    (h : LoopInv s) : LoopInv (applyStep s st) := by
  obtain ⟨hnd, hp, hr, hhi⟩ := h
  cases st with
  | sendRequest => exact loopInv_send s ⟨hnd, hp, hr, hhi⟩
  | writeFail i => exact loopInv_popResolve s i _ rfl ⟨hnd, hp, hr, hhi⟩
  | recvResponse i => exact loopInv_popResolve s i _ rfl ⟨hnd, hp, hr, hhi⟩
  | recvError i => exact loopInv_popResolve s i _ rfl ⟨hnd, hp, hr, hhi⟩
  | recvNotify => exact ⟨hnd, hp, hr, hhi⟩
  | recvCall => exact ⟨hnd, hp, hr, hhi⟩

/-- The invariant is preserved by any trace. -/
theorem loopInv_foldl (steps : List LoopStep) (s : LoopState) (h : LoopInv s) :
    LoopInv (steps.foldl applyStep s) := by
  induction steps generalizing s with
  | nil => exact h
  | cons a t ih => exact ih _ (loopInv_applyStep s a h)

/-- Claim C1, amended: for every trace and every id the trace allocated,
after the reader worker exits the handle for that id has been resolved or
failed exactly once — by the reader worker on a matching line, by the
failed-write path, or by the subprocess-terminated cleanup at reader exit —
and the pending table is empty, so no handle is left pending forever. -/
theorem acpC1_pending_resolved_exactly_once (steps : List LoopStep) (i : Nat)
    (h : i < (runLoop steps).nextId) :
    resolutions (runLoop steps).events i = 1 ∧ (runLoop steps).pending = [] := by
  obtain ⟨hnd, hp, hr, hhi⟩ := loopInv_foldl steps loopInit loopInv_init
  refine ⟨?_, rfl⟩
  have h' : i < (steps.foldl applyStep loopInit).nextId := h
  show resolutions ((steps.foldl applyStep loopInit).events ++
      (steps.foldl applyStep loopInit).pending.map ClientEvent.terminatedFailed) i = 1
  rw [resolutions_append, resolutions_map_term]
  by_cases hm : i ∈ (steps.foldl applyStep loopInit).pending
  · rw [(hp i hm).2, List.count_eq_one_of_mem hnd hm]
  · rw [hr i h' hm, List.count_eq_zero_of_not_mem hm]

/-- Witness for the amended C1 at a concrete trace: one request sent and
answered by the reader worker. -/
theorem acpC1_witness :
    resolutions (runLoop [LoopStep.sendRequest, LoopStep.recvResponse 0]).events 0 = 1 ∧
    (runLoop [LoopStep.sendRequest, LoopStep.recvResponse 0]).pending = [] :=
  acpC1_pending_resolved_exactly_once [LoopStep.sendRequest, LoopStep.recvResponse 0] 0
    (by decide)

/-- Counterexample to C1 as stated: when the scheduled write of a request
fails, the handle is failed by the write helper — a path the claim's
either/or does not list.  In the trace below id 0 is allocated and resolved
exactly once, yet no reader-worker or subprocess-terminated event for it
exists. -/
theorem acpC1_counterexample :
    0 < (runLoop [LoopStep.sendRequest, LoopStep.writeFail 0]).nextId ∧
    resolutions (runLoop [LoopStep.sendRequest, LoopStep.writeFail 0]).events 0 = 1 ∧
    listedResolutions (runLoop [LoopStep.sendRequest, LoopStep.writeFail 0]).events 0 = 0 := by
  decide
